import Mathlib

/-!
Shallow embedding of the concurrent fetch-verify-upload pipeline of
`src/download.py` (functions `blob_exists`, `upload_audio_to_gcs`,
`get_video_urls`, `download_and_upload_video_audio`, `write_csv_entry`,
and the result-collection loop of `download_channel_audio_parallel`).

External effects (the yt-dlp extraction backend, the GCS storage backend,
the Firefox cookie source, the filesystem) are modelled by per-attempt
oracles; each embedded function returns its value together with a `Trace`
recording the observable side effects (CSV ledger rows appended, cookie
refresh calls, download calls, backend existence queries, put calls,
local-file deletions).
-/

/-- Ledger status codes.  The spec's `TransferOutcome` enumerates four
statuses; `AUTH_FAILED` is included in the type so that claims about it
can be stated, whether or not the code ever emits it. -/
inductive Status
  | DOWNLOAD_SUCCESS
  | ALREADY_EXISTS
  | DOWNLOAD_FAILED
  | AUTH_FAILED
deriving DecidableEq, Repr

/-- One row of the transfer ledger CSV, mirroring
`write_csv_entry(url, filename, status, duration_seconds, error_message)`
in `src/download.py` (the timestamp column is not modelled). -/
structure CsvRow where
  url : String
  filename : String
  status : Status
  durationSeconds : Nat
  errorMessage : String
deriving DecidableEq, Repr

/-- Observable side effects of one pipeline execution. -/
structure Trace where
  csvRows : List CsvRow
  refreshCalls : Nat
  downloads : Nat
  existsChecks : Nat
  putCalls : Nat
  deletions : Nat
deriving DecidableEq, Repr

def Trace.zero : Trace := ⟨[], 0, 0, 0, 0, 0⟩

def Trace.add (s t : Trace) : Trace :=
  ⟨s.csvRows ++ t.csvRows, s.refreshCalls + t.refreshCalls,
   s.downloads + t.downloads, s.existsChecks + t.existsChecks,
   s.putCalls + t.putCalls, s.deletions + t.deletions⟩

/-- Chars-list version of Python's startswith, used to build substring
matching. -/
def startsWithChars : List Char → List Char → Bool
  | [], _ => true
  | _ :: _, [] => false
  | a :: as, b :: bs => decide (a = b) && startsWithChars as bs

/-- Chars-list substring containment. -/
def hasSubChars (needle : List Char) : List Char → Bool
  | [] => needle.isEmpty
  | b :: bs => startsWithChars needle (b :: bs) || hasSubChars needle bs

/-- Python's `needle in hay` on strings. -/
def strContains (hay needle : String) : Bool :=
  hasSubChars needle.toList hay.toList

/-- Python's `str.lower()`, character by character. -/
def lowerString (s : String) : String :=
  ⟨s.toList.map Char.toLower⟩

/-- The authentication keyword vocabulary of `src/download.py` lines 245
and 351: `['cookie', 'expired', 'authentication', 'login']`. -/
def authKeywords : List String := ["cookie", "expired", "authentication", "login"]

/-- Classification of a raised error message as an authentication failure:
`any(keyword in error_message for keyword in [...])` applied to the
lowercased message (`src/download.py` lines 242-245 and 348-351). -/
def isAuthError (msg : String) : Bool :=
  authKeywords.any (fun k => strContains (lowerString msg) k)

/-- The GCS existence check `blob_exists(bucket, blob_name)` of
`src/download.py` lines 125-157.  The bucket handle is `Option Unit`
(`none` = the handle is `None`); the underlying backend query outcome is
an `Except`: `Except.error e` models `blob.exists` raising, which the
function catches, returning `False`. -/
def blob_exists (bucket : Option Unit) (query : Except String Bool) : Bool :=
  match bucket with
  | none => false
  | some _ =>
    match query with
    | Except.error _ => false
    | Except.ok b => b

/-- Outcome of `ydl.extract_info(video_url, download=False)` at
`src/download.py` line 291: it may raise, return a falsy info dict, or
yield the expected local filename (via `prepare_filename`). -/
inductive ExtractResult
  | raises (msg : String)
  | noInfo
  | ok (expectedFilename : String)
deriving DecidableEq, Repr

/-- Behaviour of the external world during one attempt of the retry loop
of `download_and_upload_video_audio`. -/
structure Attempt where
  /-- outcome of `extract_info` -/
  extract : ExtractResult
  /-- underlying outcome of `blob.exists` at the pre-fetch check (line 306) -/
  preQuery : Except String Bool
  /-- whether `ydl.download` raises, and with what message (line 314) -/
  downloadRaises : Option String
  /-- `os.path.exists(expected_filename)` after the download (line 317) -/
  fileOnDisk : Bool
  /-- underlying outcome of `blob.exists` at the pre-upload re-check (line 179) -/
  recheckQuery : Except String Bool
  /-- whether `blob.upload_from_filename` fails (raises) (line 199) -/
  putFails : Bool
  /-- elapsed seconds reported for this attempt -/
  elapsed : Nat
deriving Repr

/-- Result of the `try` body of one attempt: either a terminal return
value with its effect delta, or an exception propagated to the `except`
handler. -/
inductive AttemptOut
  | done (res : Bool × Bool) (delta : Trace)
  | exn (msg : String) (delta : Trace)
deriving Repr

def AttemptOut.delta : AttemptOut → Trace
  | .done _ t => t
  | .exn _ t => t

/-- The GCS upload `upload_audio_to_gcs(bucket, audio_file, relative_path)`
of `src/download.py` lines 159-210: returns `False` when the bucket handle
is absent; otherwise re-checks existence and returns `True` without a put
call when the blob is already there; otherwise issues the put, returning
`True` on success and `False` when it raises (caught at line 208). -/
def upload_audio_to_gcs (bucket : Option Unit) (recheckQuery : Except String Bool)
    (putFails : Bool) : Bool × Trace :=
  match bucket with
  | none => (false, Trace.zero)
  | some u =>
    if blob_exists (some u) recheckQuery then
      (true, { Trace.zero with existsChecks := 1 })
    else if putFails then
      (false, { Trace.zero with existsChecks := 1, putCalls := 1 })
    else
      (true, { Trace.zero with existsChecks := 1, putCalls := 1 })

/-- Download-and-upload phase of one attempt, after the pre-fetch
existence check came back false (or was skipped because the bucket handle
is absent): `src/download.py` lines 313-345. -/
def afterPreCheck (bucket : Option Unit) (url : String) (a : Attempt)
    (fname : String) (t : Trace) : AttemptOut :=
  match a.downloadRaises with
  | some msg => AttemptOut.exn msg { t with downloads := t.downloads + 1 }
  | none =>
    let t1 : Trace := { t with downloads := t.downloads + 1 }
    if a.fileOnDisk then
      let t2 : Trace := { t1 with csvRows := t1.csvRows ++
        [⟨url, fname, Status.DOWNLOAD_SUCCESS, a.elapsed, ""⟩] }
      match bucket with
      | none => AttemptOut.done (true, false) t2
      | some u =>
        match upload_audio_to_gcs (some u) a.recheckQuery a.putFails with
        | (true, t3) =>
          AttemptOut.done (true, true)
            { Trace.add t2 t3 with deletions := (Trace.add t2 t3).deletions + 1 }
        | (false, t3) => AttemptOut.done (true, false) (Trace.add t2 t3)
    else
      AttemptOut.done (false, false) t1

/-- The `try` body of one attempt of `download_and_upload_video_audio`
(`src/download.py` lines 288-345): resolve metadata, pre-fetch existence
check with ALREADY_EXISTS short-circuit, then download and upload. -/
def attemptStep (bucket : Option Unit) (url : String) (a : Attempt) : AttemptOut :=
  match a.extract with
  | ExtractResult.raises msg => AttemptOut.exn msg Trace.zero
  | ExtractResult.noInfo => AttemptOut.done (false, false) Trace.zero
  | ExtractResult.ok fname =>
    match bucket with
    | some u =>
      if blob_exists (some u) a.preQuery then
        AttemptOut.done (true, true)
          { Trace.zero with
            existsChecks := 1
            csvRows := [⟨url, fname, Status.ALREADY_EXISTS, 0, "File already on GCS"⟩] }
      else
        afterPreCheck (some u) url a fname { Trace.zero with existsChecks := 1 }
    | none => afterPreCheck none url a fname Trace.zero

/-- The bounded retry loop of `download_and_upload_video_audio`
(`src/download.py` lines 286-371).  `fuel` is the number of attempts
still allowed (`max_retries - attempt`); `fuel = 1` means this is the
last attempt.  On an exception: if this is the last attempt, a
DOWNLOAD_FAILED row (filename `"unknown"`, the raw message) is appended
and `(False, False)` returned; otherwise, when the message is
authentication-classified, one cookie refresh call is made before the
next attempt (lines 351-362), and a non-authentication failure retries
immediately with no refresh. -/
def runLoop (bucket : Option Unit) (url : String) (oracle : Nat → Attempt) :
    Nat → Nat → Trace → (Bool × Bool) × Trace
  | 0, _, tr => ((false, false), tr)
  | fuel + 1, i, tr =>
    match attemptStep bucket url (oracle i) with
    | AttemptOut.done res d => (res, Trace.add tr d)
    | AttemptOut.exn msg d =>
      let tr1 := Trace.add tr d
      if fuel = 0 then
        ((false, false),
          { tr1 with csvRows := tr1.csvRows ++
            [⟨url, "unknown", Status.DOWNLOAD_FAILED, (oracle i).elapsed, msg⟩] })
      else
        runLoop bucket url oracle fuel (i + 1)
          (if isAuthError msg then { tr1 with refreshCalls := tr1.refreshCalls + 1 }
           else tr1)

/-- `download_and_upload_video_audio(video_url, download_path, bucket)`
(`src/download.py` lines 265-371), with `max_retries = 3`. -/
def download_and_upload_video_audio (bucket : Option Unit) (url : String)
    (oracle : Nat → Attempt) : (Bool × Bool) × Trace :=
  runLoop bucket url oracle 3 0 Trace.zero

/-- Outcome of `ydl.extract_info(channel_url, download=False)` in
`get_video_urls` (`src/download.py` line 230): raise, an info dict with
an `entries` list (each entry possibly falsy), or no `entries` key. -/
inductive ChannelFetch
  | raises (msg : String)
  | ok (entries : List (Option String))
  | noEntries
deriving Repr

/-- Retry loop of `get_video_urls` (`src/download.py` lines 226-263).
Returns the url list together with the number of cookie refresh calls. -/
def get_video_urls_go (oracle : Nat → ChannelFetch) :
    Nat → Nat → Nat → List String × Nat
  | 0, _, refreshes => ([], refreshes)
  | fuel + 1, i, refreshes =>
    match oracle i with
    | ChannelFetch.ok entries => (entries.filterMap id, refreshes)
    | ChannelFetch.noEntries => ([], refreshes)
    | ChannelFetch.raises msg =>
      if fuel = 0 then ([], refreshes)
      else get_video_urls_go oracle fuel (i + 1)
        (refreshes + (if isAuthError msg then 1 else 0))

/-- `get_video_urls(channel_url)` (`src/download.py` lines 212-263),
with `max_retries = 3`. -/
def get_video_urls (oracle : Nat → ChannelFetch) : List String × Nat :=
  get_video_urls_go oracle 3 0 0

/-- One iteration of the result-collection loop of
`download_channel_audio_parallel` (`src/download.py` lines 400-412):
the accumulator is `(successful_downloads, successful_uploads,
failed_downloads)`; `none` models `future.result()` raising, which is
caught and counted as a failure. -/
def tallyStep (acc : Nat × Nat × Nat) (r : Option (Bool × Bool)) : Nat × Nat × Nat :=
  match r with
  | some (true, true) => (acc.1 + 1, acc.2.1 + 1, acc.2.2)
  | some (true, false) => (acc.1 + 1, acc.2.1, acc.2.2)
  | some (false, _) => (acc.1, acc.2.1, acc.2.2 + 1)
  | none => (acc.1, acc.2.1, acc.2.2 + 1)

/-- The whole result-collection loop over one channel's completed item
results, in completion order. -/
def download_channel_tally (results : List (Option (Bool × Bool))) : Nat × Nat × Nat :=
  results.foldl tallyStep (0, 0, 0)

/-- A line of the ledger CSV file: the header row or a data row. -/
inductive LRow
  | header
  | data (row : CsvRow)
deriving DecidableEq, Repr

/-- The ledger file on disk: `none` = the file does not exist yet. -/
def fileLines : Option (List LRow) → List LRow
  | none => []
  | some l => l

/-- The append phase of `write_csv_entry` (`src/download.py` lines
99-103): open in append mode (creating the file), write the header row
when the earlier `os.path.exists` check (line 97) came back false, then
write the data row. -/
def csvAppendPhase (sawExists : Bool) (row : CsvRow) (f : Option (List LRow)) :
    Option (List LRow) :=
  some (fileLines f ++ (if sawExists then [LRow.data row]
                        else [LRow.header, LRow.data row]))

/-- `write_csv_entry` run without interruption: the existence check
immediately followed by the append phase. -/
def write_csv_entry (row : CsvRow) (f : Option (List LRow)) : Option (List LRow) :=
  csvAppendPhase f.isSome row f

/-- One thread executing `write_csv_entry`, split at its atomic
filesystem operations: `pc = 0` before the `os.path.exists` check,
`pc = 1` between the check and the append, `pc = 2` done.  `saw` stores
the existence result the thread observed. -/
structure CsvThread where
  row : CsvRow
  pc : Nat
  saw : Bool
deriving DecidableEq, Repr

def csvThreadStep (f : Option (List LRow)) (t : CsvThread) :
    Option (List LRow) × CsvThread :=
  if t.pc = 0 then (f, { t with pc := 1, saw := f.isSome })
  else if t.pc = 1 then (csvAppendPhase t.saw t.row f, { t with pc := 2 })
  else (f, t)

/-- Run two concurrent `write_csv_entry` executions under a schedule:
`true` steps thread `a`, `false` steps thread `b`. -/
def runCsvSched (sched : List Bool) (f : Option (List LRow)) (a b : CsvThread) :
    Option (List LRow) :=
  match sched with
  | [] => f
  | c :: rest =>
    if c then
      match csvThreadStep f a with
      | (f1, a1) => runCsvSched rest f1 a1 b
    else
      match csvThreadStep f b with
      | (f1, b1) => runCsvSched rest f1 a b1

/-- Number of header rows in the ledger file. -/
def countHeaders (f : Option (List LRow)) : Nat :=
  (fileLines f).countP (fun l => decide (l = LRow.header))

/-- Oracle where every attempt raises an authentication-classified error. -/
def c1Oracle : Nat → Attempt := fun _ =>
  ⟨ExtractResult.raises "cookie expired", Except.ok false, none, false,
   Except.ok false, false, 7⟩

/-- Oracle where the download call returns but the expected file is absent
from disk. -/
def c2Oracle : Nat → Attempt := fun _ =>
  ⟨ExtractResult.ok "ch/a.wav", Except.ok false, none, false,
   Except.ok false, false, 5⟩

/-- Oracle where the download succeeds and the file is on disk. -/
def c2SuccessOracle : Nat → Attempt := fun _ =>
  ⟨ExtractResult.ok "ch/a.wav", Except.ok false, none, true,
   Except.ok false, false, 5⟩

/-- Oracle where the destination key already exists at the pre-fetch check. -/
def c4Oracle : Nat → Attempt := fun _ =>
  ⟨ExtractResult.ok "ch/a.wav", Except.ok true, none, true,
   Except.ok false, false, 4⟩

/-- Oracle where the key is absent at the pre-fetch check but present at
the pre-upload re-check. -/
def c5Oracle : Nat → Attempt := fun _ =>
  ⟨ExtractResult.ok "ch/a.wav", Except.ok false, none, true,
   Except.ok true, false, 6⟩

/-- Oracle raising an authentication-classified error on attempt 0, a
non-authentication error on attempt 1, and an authentication-classified
error on the final attempt. -/
def c6Oracle : Nat → Attempt := fun i =>
  if i = 0 then
    ⟨ExtractResult.raises "cookie expired", Except.ok false, none, false,
     Except.ok false, false, 1⟩
  else if i = 1 then
    ⟨ExtractResult.raises "http error 404", Except.ok false, none, false,
     Except.ok false, false, 2⟩
  else
    ⟨ExtractResult.raises "login required", Except.ok false, none, false,
     Except.ok false, false, 3⟩

/-- Channel-resolution oracle with the same failure sequence as `c6Oracle`. -/
def c6ChannelOracle : Nat → ChannelFetch := fun i =>
  if i = 0 then ChannelFetch.raises "cookie expired"
  else if i = 1 then ChannelFetch.raises "http error 404"
  else ChannelFetch.raises "login required"

/-- Attempt whose pre-fetch existence query raises at the backend. -/
def c9Attempt : Attempt :=
  ⟨ExtractResult.ok "ch/a.wav", Except.error "deadline exceeded", none, true,
   Except.ok false, false, 2⟩

/-- Oracle where the destination key already exists at the pre-fetch check. -/
def c10Oracle : Nat → Attempt := fun _ =>
  ⟨ExtractResult.ok "ch/b.wav", Except.ok true, none, true,
   Except.ok false, false, 9⟩

/-- Data row written by the first concurrent ledger writer. -/
def rowA : CsvRow := ⟨"u1", "f1", Status.DOWNLOAD_SUCCESS, 1, ""⟩

/-- Data row written by the second concurrent ledger writer. -/
def rowB : CsvRow := ⟨"u2", "f2", Status.DOWNLOAD_SUCCESS, 2, ""⟩

theorem attemptStep_rows_le (b : Option Unit) (u : String) (a : Attempt) :
    (attemptStep b u a).delta.csvRows.length ≤ 1 := by
  obtain ⟨ext, preQ, dlR, fod, recQ, putF, el⟩ := a
  cases ext
  all_goals cases b
  all_goals rcases preQ with _ | pb
  all_goals try cases pb
  all_goals rcases dlR with _ | dm
  all_goals cases fod
  all_goals rcases recQ with _ | rb
  all_goals try cases rb
  all_goals cases putF
  all_goals simp [attemptStep, afterPreCheck, upload_audio_to_gcs, blob_exists,
    AttemptOut.delta, Trace.add, Trace.zero]

theorem attemptStep_exn_delta (b : Option Unit) (u : String) (a : Attempt)
    (m : String) (d : Trace) (h : attemptStep b u a = AttemptOut.exn m d) :
    d.csvRows = [] ∧ d.deletions = 0 := by
  obtain ⟨ext, preQ, dlR, fod, recQ, putF, el⟩ := a
  cases ext
  all_goals cases b
  all_goals rcases preQ with _ | pb
  all_goals try cases pb
  all_goals rcases dlR with _ | dm
  all_goals cases fod
  all_goals rcases recQ with _ | rb
  all_goals try cases rb
  all_goals cases putF
  all_goals simp_all [attemptStep, afterPreCheck, upload_audio_to_gcs, blob_exists,
    Trace.add, Trace.zero]
  all_goals obtain ⟨h1, h2⟩ := h
  all_goals subst h2
  all_goals simp

theorem attemptStep_done_true_rows (b : Option Unit) (u : String) (a : Attempt)
    (res : Bool × Bool) (d : Trace) (h : attemptStep b u a = AttemptOut.done res d)
    (hres : res.1 = true) : d.csvRows.length = 1 := by
  obtain ⟨r1, r2⟩ := res
  simp only at hres
  subst hres
  obtain ⟨ext, preQ, dlR, fod, recQ, putF, el⟩ := a
  cases r2
  all_goals cases ext
  all_goals cases b
  all_goals rcases preQ with _ | pb
  all_goals try cases pb
  all_goals rcases dlR with _ | dm
  all_goals cases fod
  all_goals rcases recQ with _ | rb
  all_goals try cases rb
  all_goals cases putF
  all_goals simp_all [attemptStep, afterPreCheck, upload_audio_to_gcs, blob_exists,
    Trace.add, Trace.zero]
  all_goals try obtain ⟨h1, h2⟩ := h
  all_goals simp_all

theorem attemptStep_status (b : Option Unit) (u : String) (a : Attempt) :
    ∀ r ∈ (attemptStep b u a).delta.csvRows,
      r.status = Status.ALREADY_EXISTS ∨ r.status = Status.DOWNLOAD_SUCCESS := by
  obtain ⟨ext, preQ, dlR, fod, recQ, putF, el⟩ := a
  cases ext
  all_goals cases b
  all_goals rcases preQ with _ | pb
  all_goals try cases pb
  all_goals rcases dlR with _ | dm
  all_goals cases fod
  all_goals rcases recQ with _ | rb
  all_goals try cases rb
  all_goals cases putF
  all_goals simp [attemptStep, afterPreCheck, upload_audio_to_gcs, blob_exists,
    AttemptOut.delta, Trace.add, Trace.zero]

theorem attemptStep_deletions_le (b : Option Unit) (u : String) (a : Attempt) :
    (attemptStep b u a).delta.deletions ≤ 1 := by
  obtain ⟨ext, preQ, dlR, fod, recQ, putF, el⟩ := a
  cases ext
  all_goals cases b
  all_goals rcases preQ with _ | pb
  all_goals try cases pb
  all_goals rcases dlR with _ | dm
  all_goals cases fod
  all_goals rcases recQ with _ | rb
  all_goals try cases rb
  all_goals cases putF
  all_goals simp [attemptStep, afterPreCheck, upload_audio_to_gcs, blob_exists,
    AttemptOut.delta, Trace.add, Trace.zero]

theorem attemptStep_none (u : String) (a : Attempt) :
    (attemptStep none u a).delta.existsChecks = 0
    ∧ (attemptStep none u a).delta.putCalls = 0
    ∧ (attemptStep none u a).delta.deletions = 0
    ∧ ∀ res d, attemptStep none u a = AttemptOut.done res d → res.2 = false := by
  obtain ⟨ext, preQ, dlR, fod, recQ, putF, el⟩ := a
  cases ext
  all_goals rcases dlR with _ | dm
  all_goals cases fod
  all_goals simp [attemptStep, afterPreCheck, upload_audio_to_gcs, blob_exists,
    AttemptOut.delta, Trace.add, Trace.zero]

theorem runLoop_rows_le (b : Option Unit) (u : String) (o : Nat → Attempt)
    (fuel i : Nat) (tr : Trace) :
    (runLoop b u o fuel i tr).2.csvRows.length ≤ tr.csvRows.length + 1 := by
  induction fuel generalizing i tr with
  | zero => simp [runLoop]
  | succ n ih =>
    rw [runLoop]
    cases h : attemptStep b u (o i) with
    | done res d =>
      have hle := attemptStep_rows_le b u (o i)
      rw [h] at hle
      simp only [AttemptOut.delta] at hle
      simp [Trace.add]
      omega
    | exn m d =>
      have hd := attemptStep_exn_delta b u (o i) m d h
      by_cases hn : n = 0
      · subst hn
        simp [Trace.add, hd.1]
      · simp only [hn, if_false]
        have ihx := ih (i + 1)
          (if isAuthError m then
            { Trace.add tr d with refreshCalls := (Trace.add tr d).refreshCalls + 1 }
           else Trace.add tr d)
        rcases hb : isAuthError m with _ | _ <;>
          simp only [hb, if_true, if_false, Bool.false_eq_true, ite_true, ite_false] at ihx ⊢ <;>
          simpa [Trace.add, hd.1] using ihx

theorem runLoop_true_rows (b : Option Unit) (u : String) (o : Nat → Attempt)
    (fuel i : Nat) (tr : Trace)
    (h : (runLoop b u o fuel i tr).1.1 = true) :
    (runLoop b u o fuel i tr).2.csvRows.length = tr.csvRows.length + 1 := by
  induction fuel generalizing i tr with
  | zero => simp [runLoop] at h
  | succ n ih =>
    rw [runLoop] at h ⊢
    cases hs : attemptStep b u (o i) with
    | done res d =>
      rw [hs] at h
      simp only at h
      have := attemptStep_done_true_rows b u (o i) res d hs h
      simp [Trace.add, this]
    | exn m d =>
      have hd := attemptStep_exn_delta b u (o i) m d hs
      rw [hs] at h
      by_cases hn : n = 0
      · subst hn
        simp at h
      · simp only [hn, if_false] at h ⊢
        have ihx := ih (i + 1)
          (if isAuthError m then
            { Trace.add tr d with refreshCalls := (Trace.add tr d).refreshCalls + 1 }
           else Trace.add tr d) h
        rcases hb : isAuthError m with _ | _ <;>
          rw [hb] at ihx <;>
          simpa [Trace.add, hd.1] using ihx

theorem runLoop_no_auth_failed (b : Option Unit) (u : String) (o : Nat → Attempt)
    (fuel i : Nat) (tr : Trace)
    (htr : ∀ r ∈ tr.csvRows, r.status ≠ Status.AUTH_FAILED) :
    ∀ r ∈ (runLoop b u o fuel i tr).2.csvRows, r.status ≠ Status.AUTH_FAILED := by
  induction fuel generalizing i tr with
  | zero => simpa [runLoop] using htr
  | succ n ih =>
    rw [runLoop]
    cases hs : attemptStep b u (o i) with
    | done res d =>
      have hst := attemptStep_status b u (o i)
      rw [hs] at hst
      simp only [AttemptOut.delta] at hst
      intro r hr
      simp only [Trace.add, List.mem_append] at hr
      rcases hr with hr | hr
      · exact htr r hr
      · rcases hst r hr with h1 | h1 <;> simp [h1]
    | exn m d =>
      have hd := attemptStep_exn_delta b u (o i) m d hs
      by_cases hn : n = 0
      · subst hn
        intro r hr
        simp only [if_true, Trace.add, hd.1, List.append_nil, List.mem_append,
          List.mem_singleton, if_pos rfl] at hr
        rcases hr with hr | hr
        · exact htr r hr
        · subst hr
          simp
      · simp only [hn, if_false]
        apply ih
        rcases hb : isAuthError m with _ | _ <;>
          simp only [hb, ite_true, ite_false, Bool.false_eq_true] <;>
          simpa [Trace.add, hd.1] using htr

theorem runLoop_deletions_le (b : Option Unit) (u : String) (o : Nat → Attempt)
    (fuel i : Nat) (tr : Trace) :
    (runLoop b u o fuel i tr).2.deletions ≤ tr.deletions + 1 := by
  induction fuel generalizing i tr with
  | zero => simp [runLoop]
  | succ n ih =>
    rw [runLoop]
    cases h : attemptStep b u (o i) with
    | done res d =>
      have hle := attemptStep_deletions_le b u (o i)
      rw [h] at hle
      simp only [AttemptOut.delta] at hle
      simp [Trace.add]
      omega
    | exn m d =>
      have hd := attemptStep_exn_delta b u (o i) m d h
      by_cases hn : n = 0
      · subst hn
        simp [Trace.add, hd.2]
      · simp only [hn, if_false]
        have ihx := ih (i + 1)
          (if isAuthError m then
            { Trace.add tr d with refreshCalls := (Trace.add tr d).refreshCalls + 1 }
           else Trace.add tr d)
        rcases hb : isAuthError m with _ | _ <;>
          rw [hb] at ihx <;>
          simpa [Trace.add, hd.2] using ihx

theorem runLoop_none (u : String) (o : Nat → Attempt) (fuel i : Nat) (tr : Trace) :
    (runLoop none u o fuel i tr).2.existsChecks = tr.existsChecks
    ∧ (runLoop none u o fuel i tr).2.putCalls = tr.putCalls
    ∧ (runLoop none u o fuel i tr).2.deletions = tr.deletions
    ∧ (runLoop none u o fuel i tr).1.2 = false := by
  induction fuel generalizing i tr with
  | zero => simp [runLoop]
  | succ n ih =>
    rw [runLoop]
    cases hs : attemptStep none u (o i) with
    | done res d =>
      have hn := attemptStep_none u (o i)
      rw [hs] at hn
      simp only [AttemptOut.delta] at hn
      have hr2 := hn.2.2.2 res d rfl
      simp [Trace.add, hn.1, hn.2.1, hn.2.2.1, hr2]
    | exn m d =>
      have hn := attemptStep_none u (o i)
      rw [hs] at hn
      simp only [AttemptOut.delta] at hn
      by_cases hf : n = 0
      · subst hf
        simp [Trace.add, hn.1, hn.2.1, hn.2.2.1]
      · simp only [hf, if_false]
        have ihx := ih (i + 1)
          (if isAuthError m then
            { Trace.add tr d with refreshCalls := (Trace.add tr d).refreshCalls + 1 }
           else Trace.add tr d)
        rcases hb : isAuthError m with _ | _ <;>
          rw [hb] at ihx <;>
          simpa [Trace.add, hn.1, hn.2.1, hn.2.2.1] using ihx

theorem tally_foldl_sum (l : List (Option (Bool × Bool))) (acc : Nat × Nat × Nat) :
    (l.foldl tallyStep acc).1 + (l.foldl tallyStep acc).2.2
      = acc.1 + acc.2.2 + l.length := by
  induction l generalizing acc with
  | nil => simp
  | cons x xs ih =>
    rw [List.foldl_cons, ih]
    rcases x with _ | ⟨b1, b2⟩
    · simp [tallyStep]
      omega
    · cases b1 <;> cases b2 <;> simp [tallyStep] <;> omega

/-- C1 counterexample: with every attempt of the retry loop raising the
authentication-classified message "cookie expired", the terminal ledger
row has status DOWNLOAD_FAILED, not AUTH_FAILED as the claim states. -/
theorem auth_exhaustion_yields_download_failed :
    (download_and_upload_video_audio none "u" c1Oracle).2.csvRows
      = [⟨"u", "unknown", Status.DOWNLOAD_FAILED, 7, "cookie expired"⟩]
    ∧ isAuthError "cookie expired" = true := by
  decide

/-- C1 (amended): whatever the oracle behaviour, no ledger row ever has
status AUTH_FAILED; retry exhaustion always records DOWNLOAD_FAILED,
whether or not the final failure is authentication-classified. -/
theorem no_auth_failed_rows (bucket : Option Unit) (url : String)
    (oracle : Nat → Attempt) (r : CsvRow)
    (hr : r ∈ (download_and_upload_video_audio bucket url oracle).2.csvRows) :
    r.status ≠ Status.AUTH_FAILED :=
  runLoop_no_auth_failed bucket url oracle 3 0 Trace.zero
    (by simp [Trace.zero]) r hr

/-- Witness for `no_auth_failed_rows` at a concrete run. -/
theorem no_auth_failed_rows_witness :
    CsvRow.status ⟨"u", "unknown", Status.DOWNLOAD_FAILED, 7, "cookie expired"⟩
      ≠ Status.AUTH_FAILED :=
  no_auth_failed_rows none "u" c1Oracle
    ⟨"u", "unknown", Status.DOWNLOAD_FAILED, 7, "cookie expired"⟩ (by decide)

/-- C2 counterexample: when the download call returns but the expected
file is absent from disk, the invocation returns (False, False) and
appends no ledger row at all, contradicting "exactly one row per
invocation". -/
theorem missing_file_appends_no_row :
    (download_and_upload_video_audio none "u" c2Oracle).2.csvRows = []
    ∧ (download_and_upload_video_audio none "u" c2Oracle).1 = (false, false) := by
  decide

/-- C2 (amended): each invocation appends at most one ledger row, and
exactly one whenever it reports a download success; the info-falsy and
file-absent branches return without appending any row. -/
theorem at_most_one_ledger_row (bucket : Option Unit) (url : String)
    (oracle : Nat → Attempt) :
    (download_and_upload_video_audio bucket url oracle).2.csvRows.length ≤ 1
    ∧ ((download_and_upload_video_audio bucket url oracle).1.1 = true →
        (download_and_upload_video_audio bucket url oracle).2.csvRows.length = 1) := by
  constructor
  · have h := runLoop_rows_le bucket url oracle 3 0 Trace.zero
    simpa [download_and_upload_video_audio, Trace.zero] using h
  · intro h
    have h2 := runLoop_true_rows bucket url oracle 3 0 Trace.zero
      (by simpa [download_and_upload_video_audio] using h)
    simpa [download_and_upload_video_audio, Trace.zero] using h2

/-- Witness for `at_most_one_ledger_row` at a concrete successful run. -/
theorem at_most_one_ledger_row_witness :
    (download_and_upload_video_audio none "u" c2SuccessOracle).2.csvRows.length ≤ 1
    ∧ (download_and_upload_video_audio none "u" c2SuccessOracle).2.csvRows.length = 1 :=
  ⟨(at_most_one_ledger_row none "u" c2SuccessOracle).1,
   (at_most_one_ledger_row none "u" c2SuccessOracle).2 (by decide)⟩

/-- C3: the locally fetched artifact is deleted exactly when its key is
confirmed present at the storage backend: the bucket handle exists, the
item resolved, the pre-fetch check was negative, the download call
returned with the file on disk, and either the pre-upload re-check found
the key present or the put call succeeded.  When the upload fails or
storage is unavailable no deletion occurs; a full run deletes at most
once. -/
theorem delete_iff_confirmed :
    (∀ (bucket : Option Unit) (url : String) (a : Attempt),
      (attemptStep bucket url a).delta.deletions = 1 ↔
        (bucket = some () ∧ (∃ f, a.extract = ExtractResult.ok f)
          ∧ blob_exists bucket a.preQuery = false
          ∧ a.downloadRaises = none ∧ a.fileOnDisk = true
          ∧ (blob_exists bucket a.recheckQuery = true ∨ a.putFails = false)))
    ∧ (∀ (bucket : Option Unit) (url : String) (oracle : Nat → Attempt),
        (download_and_upload_video_audio bucket url oracle).2.deletions ≤ 1) := by
  constructor
  · intro bucket url a
    obtain ⟨ext, preQ, dlR, fod, recQ, putF, el⟩ := a
    cases ext
    all_goals rcases bucket with _ | ⟨⟩
    all_goals rcases preQ with _ | pb
    all_goals try cases pb
    all_goals rcases dlR with _ | dm
    all_goals cases fod
    all_goals rcases recQ with _ | rb
    all_goals try cases rb
    all_goals cases putF
    all_goals simp [attemptStep, afterPreCheck, upload_audio_to_gcs, blob_exists,
      AttemptOut.delta, Trace.add, Trace.zero]
  · intro bucket url oracle
    have h := runLoop_deletions_le bucket url oracle 3 0 Trace.zero
    simpa [download_and_upload_video_audio, Trace.zero] using h

/-- C4: when the destination key already exists at the pre-fetch check,
the pipeline performs no download and no put call, issues exactly the one
existence query, appends one ALREADY_EXISTS row with elapsed duration 0,
deletes nothing, and returns (True, True). -/
theorem already_exists_short_circuit (url : String) (oracle : Nat → Attempt)
    (f : String)
    (hx : (oracle 0).extract = ExtractResult.ok f)
    (hpre : blob_exists (some ()) (oracle 0).preQuery = true) :
    download_and_upload_video_audio (some ()) url oracle =
      ((true, true),
        ⟨[⟨url, f, Status.ALREADY_EXISTS, 0, "File already on GCS"⟩], 0, 0, 1, 0, 0⟩) := by
  have hstep : attemptStep (some ()) url (oracle 0)
      = AttemptOut.done (true, true)
        ⟨[⟨url, f, Status.ALREADY_EXISTS, 0, "File already on GCS"⟩], 0, 0, 1, 0, 0⟩ := by
    simp [attemptStep, hx, hpre, Trace.zero]
  rw [download_and_upload_video_audio, runLoop, hstep]
  simp [Trace.add, Trace.zero]

/-- Witness for `already_exists_short_circuit` at a concrete oracle. -/
theorem already_exists_short_circuit_witness :
    download_and_upload_video_audio (some ()) "u" c4Oracle =
      ((true, true),
        ⟨[⟨"u", "ch/a.wav", Status.ALREADY_EXISTS, 0, "File already on GCS"⟩],
         0, 0, 1, 0, 0⟩) :=
  already_exists_short_circuit "u" c4Oracle "ch/a.wav" rfl rfl

/-- C5 counterexample: when the key appears at the pre-upload re-check,
the upload is skipped (no put call) and the local file deleted, but the
ledger row recorded for the item has status DOWNLOAD_SUCCESS (written at
download time), not ALREADY_EXISTS as the claim states. -/
theorem recheck_row_is_download_success :
    download_and_upload_video_audio (some ()) "u" c5Oracle =
      ((true, true),
        ⟨[⟨"u", "ch/a.wav", Status.DOWNLOAD_SUCCESS, 6, ""⟩], 0, 1, 2, 0, 1⟩) := by
  decide

/-- C5 (amended): when the fetched item's key is found present at the
pre-upload re-check, the pipeline skips the put call, deletes the local
artifact, and the single ledger row for the item has status
DOWNLOAD_SUCCESS; no ALREADY_EXISTS row is recorded on this path. -/
theorem recheck_skips_upload_and_deletes (url : String) (oracle : Nat → Attempt)
    (f : String)
    (hx : (oracle 0).extract = ExtractResult.ok f)
    (hpre : blob_exists (some ()) (oracle 0).preQuery = false)
    (hdl : (oracle 0).downloadRaises = none)
    (hfile : (oracle 0).fileOnDisk = true)
    (hre : blob_exists (some ()) (oracle 0).recheckQuery = true) :
    download_and_upload_video_audio (some ()) url oracle =
      ((true, true),
        ⟨[⟨url, f, Status.DOWNLOAD_SUCCESS, (oracle 0).elapsed, ""⟩], 0, 1, 2, 0, 1⟩) := by
  have hstep : attemptStep (some ()) url (oracle 0)
      = AttemptOut.done (true, true)
        ⟨[⟨url, f, Status.DOWNLOAD_SUCCESS, (oracle 0).elapsed, ""⟩], 0, 1, 2, 0, 1⟩ := by
    simp [attemptStep, afterPreCheck, upload_audio_to_gcs, hx, hpre, hdl, hfile, hre,
      Trace.add, Trace.zero]
  rw [download_and_upload_video_audio, runLoop, hstep]
  simp [Trace.add, Trace.zero]

/-- Witness for `recheck_skips_upload_and_deletes` at a concrete oracle. -/
theorem recheck_skips_upload_and_deletes_witness :
    download_and_upload_video_audio (some ()) "w" c5Oracle =
      ((true, true),
        ⟨[⟨"w", "ch/a.wav", Status.DOWNLOAD_SUCCESS, 6, ""⟩], 0, 1, 2, 0, 1⟩) :=
  recheck_skips_upload_and_deletes "w" c5Oracle "ch/a.wav" rfl rfl rfl rfl rfl

theorem attemptStep_exn_refresh (b : Option Unit) (u : String) (a : Attempt)
    (m : String) (d : Trace) (h : attemptStep b u a = AttemptOut.exn m d) :
    d.refreshCalls = 0 := by
  obtain ⟨ext, preQ, dlR, fod, recQ, putF, el⟩ := a
  cases ext
  all_goals cases b
  all_goals rcases preQ with _ | pb
  all_goals try cases pb
  all_goals rcases dlR with _ | dm
  all_goals cases fod
  all_goals rcases recQ with _ | rb
  all_goals try cases rb
  all_goals cases putF
  all_goals simp_all [attemptStep, afterPreCheck, upload_audio_to_gcs, blob_exists,
    Trace.add, Trace.zero]
  all_goals obtain ⟨h1, h2⟩ := h
  all_goals subst h2
  all_goals simp

/-- C6: when every attempt of the retry loop fails (the resolve or fetch
raises), an authentication-classified failure with retries remaining
triggers exactly one cookie refresh call before the next attempt (which
reuses identical parameters), a non-authentication failure triggers none,
and the ceiling is 3 attempts; the channel-resolution loop of
`get_video_urls` follows the same policy. -/
theorem auth_refresh_policy (bucket : Option Unit) (url : String)
    (oracle : Nat → Attempt) (coracle : Nat → ChannelFetch) (m0 m1 m2 : String)
    (d0 d1 d2 : Trace)
    (s0 : attemptStep bucket url (oracle 0) = AttemptOut.exn m0 d0)
    (s1 : attemptStep bucket url (oracle 1) = AttemptOut.exn m1 d1)
    (s2 : attemptStep bucket url (oracle 2) = AttemptOut.exn m2 d2)
    (g0 : coracle 0 = ChannelFetch.raises m0)
    (g1 : coracle 1 = ChannelFetch.raises m1)
    (g2 : coracle 2 = ChannelFetch.raises m2) :
    (download_and_upload_video_audio bucket url oracle).2.refreshCalls
        = (if isAuthError m0 then 1 else 0) + (if isAuthError m1 then 1 else 0)
    ∧ (download_and_upload_video_audio bucket url oracle).1 = (false, false)
    ∧ (get_video_urls coracle).2
        = (if isAuthError m0 then 1 else 0) + (if isAuthError m1 then 1 else 0)
    ∧ (get_video_urls coracle).1 = [] := by
  have r0 := attemptStep_exn_refresh bucket url (oracle 0) m0 d0 s0
  have r1 := attemptStep_exn_refresh bucket url (oracle 1) m1 d1 s1
  have r2 := attemptStep_exn_refresh bucket url (oracle 2) m2 d2 s2
  cases hb0 : isAuthError m0 <;> cases hb1 : isAuthError m1 <;>
    refine ⟨?_, ?_, ?_, ?_⟩ <;>
    simp [download_and_upload_video_audio, runLoop, s0, s1, s2, r0, r1, r2,
      get_video_urls, get_video_urls_go, g0, g1, g2, hb0, hb1, Trace.add, Trace.zero]

/-- Witness for `auth_refresh_policy`: one authentication-classified
failure and one plain failure among the two non-final attempts yield
exactly one refresh call. -/
theorem auth_refresh_policy_witness :
    (download_and_upload_video_audio none "u" c6Oracle).2.refreshCalls = 1
    ∧ (download_and_upload_video_audio none "u" c6Oracle).1 = (false, false)
    ∧ (get_video_urls c6ChannelOracle).2 = 1
    ∧ (get_video_urls c6ChannelOracle).1 = [] := by
  have h := auth_refresh_policy none "u" c6Oracle c6ChannelOracle
    "cookie expired" "http error 404" "login required"
    Trace.zero Trace.zero Trace.zero rfl rfl rfl rfl rfl rfl
  have e0 : isAuthError "cookie expired" = true := by decide
  have e1 : isAuthError "http error 404" = false := by decide
  rw [e0, e1] at h
  simpa using h

/-- C7: with no bucket handle (storage unavailable at startup), every
invocation issues zero backend existence queries, zero put calls and
zero local-file deletions, and never reports an upload success, so each
successfully fetched item ends as download-success-without-upload. -/
theorem no_bucket_download_only (url : String) (oracle : Nat → Attempt) :
    (download_and_upload_video_audio none url oracle).2.existsChecks = 0
    ∧ (download_and_upload_video_audio none url oracle).2.putCalls = 0
    ∧ (download_and_upload_video_audio none url oracle).2.deletions = 0
    ∧ (download_and_upload_video_audio none url oracle).1.2 = false := by
  have h := runLoop_none url oracle 3 0 Trace.zero
  simpa [download_and_upload_video_audio, Trace.zero] using h

/-- C8 counterexample: ledger appends are not mutually exclusive.
Interleaving two `write_csv_entry` executions at their check-then-append
boundary (schedule A-check, B-check, A-append, B-append) yields a ledger
with two header rows, an outcome no mutually-exclusive (serial) execution
of the same two appends can produce: both serial orders yield exactly one
header row. -/
theorem csv_append_not_mutually_exclusive :
    countHeaders (runCsvSched [true, false, true, false] none
      ⟨rowA, 0, false⟩ ⟨rowB, 0, false⟩) = 2
    ∧ countHeaders (write_csv_entry rowB (write_csv_entry rowA none)) = 1
    ∧ countHeaders (write_csv_entry rowA (write_csv_entry rowB none)) = 1 := by
  decide

/-- C8 (amended): for any completion order of one channel's item results,
the final successful_downloads plus failed_downloads equals the number of
items: every result increments exactly one of the two counters, applied
sequentially by the orchestrator's collection loop. -/
theorem download_channel_tally_sum (results : List (Option (Bool × Bool))) :
    (download_channel_tally results).1 + (download_channel_tally results).2.2
      = results.length := by
  have h := tally_foldl_sum results (0, 0, 0)
  simpa [download_channel_tally] using h

/-- C9: `blob_exists` is total and never raises: it returns false when
the bucket handle is absent and false when the underlying backend query
raises; on such a failed pre-fetch check the pipeline still proceeds to
the fetch (the download call is made). -/
theorem blob_exists_total_and_safe :
    (∀ q : Except String Bool, blob_exists none q = false)
    ∧ (∀ e : String, blob_exists (some ()) (Except.error e) = false)
    ∧ (∀ (url : String) (a : Attempt) (f : String) (e : String),
        a.extract = ExtractResult.ok f → a.preQuery = Except.error e →
          (attemptStep (some ()) url a).delta.downloads = 1) := by
  refine ⟨fun q => rfl, fun e => rfl, ?_⟩
  intro url a f e hx hq
  obtain ⟨ext, preQ, dlR, fod, recQ, putF, el⟩ := a
  simp only at hx hq
  subst hx
  subst hq
  rcases dlR with _ | dm
  all_goals cases fod
  all_goals rcases recQ with _ | rb
  all_goals try cases rb
  all_goals cases putF
  all_goals simp [attemptStep, afterPreCheck, upload_audio_to_gcs, blob_exists,
    AttemptOut.delta, Trace.add, Trace.zero]

/-- Witness for `blob_exists_total_and_safe` at concrete inputs. -/
theorem blob_exists_total_and_safe_witness :
    blob_exists none (Except.ok true) = false
    ∧ blob_exists (some ()) (Except.error "deadline exceeded") = false
    ∧ (attemptStep (some ()) "u" c9Attempt).delta.downloads = 1 :=
  ⟨blob_exists_total_and_safe.1 (Except.ok true),
   blob_exists_total_and_safe.2.1 "deadline exceeded",
   blob_exists_total_and_safe.2.2 "u" c9Attempt "ch/a.wav" "deadline exceeded" rfl rfl⟩

/-- C10: when the key pre-exists at the pre-fetch check, the item
execution returns (True, True) with no download call and no put call, and
the orchestrator's collection step therefore increments both the
successful-downloads and the successful-uploads counters. -/
theorem preexisting_key_counts_as_download_and_upload (url : String)
    (oracle : Nat → Attempt) (f : String)
    (hx : (oracle 0).extract = ExtractResult.ok f)
    (hpre : blob_exists (some ()) (oracle 0).preQuery = true) :
    (download_and_upload_video_audio (some ()) url oracle).1 = (true, true)
    ∧ (download_and_upload_video_audio (some ()) url oracle).2.downloads = 0
    ∧ (download_and_upload_video_audio (some ()) url oracle).2.putCalls = 0
    ∧ ∀ acc : Nat × Nat × Nat,
        tallyStep acc (some (download_and_upload_video_audio (some ()) url oracle).1)
          = (acc.1 + 1, acc.2.1 + 1, acc.2.2) := by
  have hstep : attemptStep (some ()) url (oracle 0)
      = AttemptOut.done (true, true)
        ⟨[⟨url, f, Status.ALREADY_EXISTS, 0, "File already on GCS"⟩], 0, 0, 1, 0, 0⟩ := by
    simp [attemptStep, hx, hpre, Trace.zero]
  rw [download_and_upload_video_audio, runLoop, hstep]
  simp [Trace.add, Trace.zero, tallyStep]

/-- Witness for `preexisting_key_counts_as_download_and_upload`. -/
theorem preexisting_key_counts_witness :
    (download_and_upload_video_audio (some ()) "u" c10Oracle).1 = (true, true)
    ∧ (download_and_upload_video_audio (some ()) "u" c10Oracle).2.downloads = 0
    ∧ (download_and_upload_video_audio (some ()) "u" c10Oracle).2.putCalls = 0
    ∧ tallyStep (3, 2, 1)
        (some (download_and_upload_video_audio (some ()) "u" c10Oracle).1)
        = (4, 3, 1) := by
  have h := preexisting_key_counts_as_download_and_upload "u" c10Oracle "ch/b.wav" rfl rfl
  exact ⟨h.1, h.2.1, h.2.2.1, h.2.2.2 (3, 2, 1)⟩
